import Mathlib

/-!
Shallow embedding of the Artorize processor core: the poison-mask difference codec
(processors/poison_mask/processor.py), the SAC binary encoder
(artorize_gateway/sac_encoder.py), the protection-pipeline pixel transforms
(artorize_runner/protection_pipeline.py and protection_pipeline_gpu.py), and the
gateway job machinery (artorize_gateway/app.py, backend_upload.py), together with
theorems settling the specification claims C1 to C10.

Images are modeled as flat row-major lists of integer samples, uint8 planes as lists
of naturals below 256, and the float noise drawn from the numpy and torch generators
as integer-valued streams; fallible Python code returns Option or Except.
-/

/-- np.clip(x, 0, 255) on one sample. -/
def clip255 (x : Int) : Int := max 0 (min 255 x)

/-- DIFF_OFFSET, the center of the uint16 range used for signed diff packing
(processor.py line 13, sac_encoder.py line 18). -/
def DIFF_OFFSET : Int := 32768

/-- One sample of _encode_difference (processor.py 34-44): add the offset, then split the
16-bit value into the hi byte (right shift by 8) and the lo byte (mask with 0xFF). -/
def encode_sample (d : Int) : Nat × Nat :=
  ((d + DIFF_OFFSET).toNat >>> 8, (d + DIFF_OFFSET).toNat &&& 255)

/-- _encode_difference (processor.py 34-44): pack signed differences into hi and lo uint8
planes; ValueError (modeled as none) when any offset value leaves the 16-bit range. -/
def encode_difference (diff : List Int) : Option (List Nat × List Nat) :=
  if diff.all (fun d => decide (0 ≤ d + DIFF_OFFSET) && decide (d + DIFF_OFFSET ≤ 65535)) then
    some (diff.map (fun d => (encode_sample d).1), diff.map (fun d => (encode_sample d).2))
  else none

/-- _decode_difference (processor.py 47-53): recover each difference as
(hi << 8) | lo minus the offset; for uint8 planes the value fits int16, so the final
astype(np.int16) in the source is exact. The identical formula appears in
sac_encoder.py lines 112-115 and 169-172. -/
def decode_difference (hi lo : List Nat) : List Int :=
  List.zipWith (fun h l => (((h <<< 8) ||| l : Nat) : Int) - DIFF_OFFSET) hi lo

/-- compute_mask (processor.py 56-91) on flat samples: images must share dimensions
(modeled as equal lengths), then the int16 difference original - processed is packed. -/
def compute_mask (original processed : List Int) : Option (List Nat × List Nat) :=
  if original.length = processed.length then
    encode_difference (List.zipWith (fun a b => a - b) original processed)
  else none

/-- reconstruct_preview (processor.py 94-104): clip(processed + decoded diff, 0, 255). -/
def reconstruct_preview (processed : List Int) (hi lo : List Nat) : List Int :=
  List.zipWith (fun p d => clip255 (p + d)) processed (decode_difference hi lo)

theorem encode_decode_sample (d : Int) (h0 : -32768 ≤ d) (h1 : d ≤ 32767) :
    ((((encode_sample d).1 <<< 8) ||| (encode_sample d).2 : Nat) : Int) - DIFF_OFFSET = d := by
  unfold encode_sample DIFF_OFFSET
  have he2 : (((d + 32768).toNat : Nat) : Int) = d + 32768 := Int.toNat_of_nonneg (by omega)
  set e := (d + 32768).toNat with he
  have hlt : e < 65536 := by omega
  have hlo : e &&& 255 = e % 256 := by
    have h := Nat.and_pow_two_sub_one_eq_mod e 8
    norm_num at h
    exact h
  have hhi : e >>> 8 = e / 256 := by
    rw [Nat.shiftRight_eq_div_pow]
  have hsl : (e / 256) <<< 8 = 2 ^ 8 * (e / 256) := by
    rw [Nat.shiftLeft_eq]
    ring
  have h28 : (2 : Nat) ^ 8 = 256 := by norm_num
  have hor : 2 ^ 8 * (e / 256) ||| e % 256 = 2 ^ 8 * (e / 256) + e % 256 := by
    have hblt : e % 256 < 2 ^ 8 := by
      rw [h28]
      exact Nat.mod_lt e (by norm_num)
    exact (Nat.mul_add_lt_is_or hblt (e / 256)).symm
  have hfull : (e / 256) <<< 8 ||| e &&& 255 = e := by
    rw [hlo, hsl, hor, h28]
    omega
  simp only [hhi, hfull]
  omega

theorem encode_guard_holds (A B : List Int)
    (hA : ∀ x ∈ A, 0 ≤ x ∧ x ≤ 255) (hB : ∀ x ∈ B, 0 ≤ x ∧ x ≤ 255) :
    (List.zipWith (fun a b => a - b) A B).all
      (fun d => decide (0 ≤ d + DIFF_OFFSET) && decide (d + DIFF_OFFSET ≤ 65535)) = true := by
  induction A generalizing B with
  | nil => simp
  | cons a A ih =>
    cases B with
    | nil => simp
    | cons b B =>
      have ha := hA a (by simp)
      have hb := hB b (by simp)
      simp only [List.zipWith_cons_cons, List.all_cons, Bool.and_eq_true, decide_eq_true_eq]
      refine ⟨⟨by unfold DIFF_OFFSET; omega, by unfold DIFF_OFFSET; omega⟩, ?_⟩
      exact ih B (fun x hx => hA x (by simp [hx])) (fun x hx => hB x (by simp [hx]))

theorem reconstruct_zip (A B : List Int) (h : A.length = B.length)
    (hA : ∀ x ∈ A, 0 ≤ x ∧ x ≤ 255) (hB : ∀ x ∈ B, 0 ≤ x ∧ x ≤ 255) :
    reconstruct_preview B
      ((List.zipWith (fun a b => a - b) A B).map (fun d => (encode_sample d).1))
      ((List.zipWith (fun a b => a - b) A B).map (fun d => (encode_sample d).2)) = A := by
  induction A generalizing B with
  | nil =>
    cases B with
    | nil => simp [reconstruct_preview, decode_difference]
    | cons b B => simp at h
  | cons a A ih =>
    cases B with
    | nil => simp at h
    | cons b B =>
      have ha := hA a (by simp)
      have hb := hB b (by simp)
      have hd := encode_decode_sample (a - b) (by omega) (by omega)
      simp only [List.zipWith_cons_cons, List.map_cons]
      unfold reconstruct_preview decode_difference
      simp only [List.zipWith_cons_cons]
      have hhead : clip255 (b + ((((encode_sample (a - b)).1 <<< 8) |||
          (encode_sample (a - b)).2 : Nat) - DIFF_OFFSET)) = a := by
        rw [hd]
        unfold clip255
        omega
      rw [hhead]
      have htail := ih B (by simpa using h)
        (fun x hx => hA x (by simp [hx])) (fun x hx => hB x (by simp [hx]))
      unfold reconstruct_preview decode_difference at htail
      rw [htail]

/-- C1: for all images A (original) and B (processed) of identical shape with samples in
the 8-bit range, encoding the per-sample signed difference A - B into hi and lo uint8
planes via offset-32768 packing (compute_mask) and reconstructing
clip(B + decoded_diff, 0, 255) (reconstruct_preview) yields A exactly, per sample. -/
theorem poison_mask_roundtrip (A B : List Int) (hlen : A.length = B.length)
    (hA : ∀ x ∈ A, 0 ≤ x ∧ x ≤ 255) (hB : ∀ x ∈ B, 0 ≤ x ∧ x ≤ 255) :
    ∃ hi lo, compute_mask A B = some (hi, lo) ∧ reconstruct_preview B hi lo = A := by
  refine ⟨_, _, ?_, reconstruct_zip A B hlen hA hB⟩
  unfold compute_mask encode_difference
  rw [if_pos hlen, if_pos (encode_guard_holds A B hA hB)]

/-- C1 witness: the round trip evaluated on concrete 4-sample images. -/
theorem poison_mask_roundtrip_witness :
    ∃ hi lo, compute_mask [0, 255, 7, 128] [255, 0, 7, 130] = some (hi, lo) ∧
      reconstruct_preview [255, 0, 7, 130] hi lo = [0, 255, 7, 128] :=
  poison_mask_roundtrip [0, 255, 7, 128] [255, 0, 7, 130] (by decide) (by decide) (by decide)

/-! ### SAC v1 encoder, artorize_gateway/sac_encoder.py -/

/-- One little-endian uint32 field of struct.pack format <I. -/
def u32le (n : Nat) : List Nat := [n % 256, n / 256 % 256, n / 65536 % 256, n / 16777216 % 256]

/-- The uint16 bit pattern of the int16 cast of x (two-complement wrap). -/
def u16wrap (x : Int) : Nat := (x % 65536).toNat

/-- Little-endian bytes of one int16 element, as written by numpy tobytes. -/
def i16le (x : Int) : List Nat := [u16wrap x % 256, u16wrap x / 256]

/-- The 24-byte SAC v1 header (sac_encoder.py 64-75): magic SAC1, flags 0, dtype_code 1,
arrays_count 2, reserved 0, then four little-endian uint32 fields. -/
def sac_header (length_a length_b width height : Nat) : List Nat :=
  [0x53, 0x41, 0x43, 0x31, 0, 1, 2, 0] ++
    u32le length_a ++ u32le length_b ++ u32le width ++ u32le height

/-- Payload bytes of one int16 array, as a.tobytes(order C). -/
def sac_payload (a : List Int) : List Nat := (a.map i16le).flatten

/-- build_sac (sac_encoder.py 39-76): none models the AssertionError raised when a nonzero
width and height disagree with the array lengths, and the struct.error raised by struct.pack
when a field does not fit format <I. -/
def build_sac (a b : List Int) (width height : Nat) : Option (List Nat) :=
  if 0 < width ∧ 0 < height ∧ ¬(a.length = width * height ∧ b.length = width * height) then
    none
  else if a.length < 2 ^ 32 ∧ b.length < 2 ^ 32 ∧ width < 2 ^ 32 ∧ height < 2 ^ 32 then
    some (sac_header a.length b.length width height ++ sac_payload a ++ sac_payload b)
  else none

/-- A decoded PIL mask image: dimensions, channel layout (none models a 2-D grayscale
array, some c a 3-D array with c channels) and the flat row-major uint8 samples. -/
structure MaskPlane where
  width : Nat
  height : Nat
  channels : Option Nat
  data : List Nat

/-- Number of samples per pixel of a channel layout. -/
def numChannels (c : Option Nat) : Nat :=
  match c with
  | some c => c
  | none => 1

/-- Channel j of a flat row-major 3-D array with c channels, as diff of index j raveled
(sac_encoder.py 120-121). -/
def channel_slice (c j : Nat) (d : List Int) : List Int :=
  (List.range (d.length / c)).map (fun i => d.getD (i * c + j) 0)

/-- Payload A selection of encode_mask_pair_from_images (sac_encoder.py 120): channel 0
when the diff array is 3-D, the full flat diff otherwise. -/
def pair_a_flat (channels : Option Nat) (diff : List Int) : List Int :=
  match channels with
  | some c => channel_slice c 0 diff
  | none => diff

/-- Payload B selection of encode_mask_pair_from_images (sac_encoder.py 121): channel 1
when the diff array is 3-D with more than one channel, the full flat diff otherwise. -/
def pair_b_flat (channels : Option Nat) (diff : List Int) : List Int :=
  match channels with
  | some c => if 1 < c then channel_slice c 1 diff else diff
  | none => diff

/-- encode_mask_pair_from_images (sac_encoder.py 79-132): require matching mask dimensions,
decode the hi and lo planes back to signed int16 differences, take payload A from channel 0
and payload B from channel 1 (both fall back to the full flat diff for 2-D or
single-channel data), and build the SAC blob with the image dimensions. -/
def encode_mask_pair_from_images (hi lo : MaskPlane) : Option (List Nat) :=
  if hi.width = lo.width ∧ hi.height = lo.height then
    build_sac (pair_a_flat hi.channels (decode_difference hi.data lo.data))
      (pair_b_flat hi.channels (decode_difference hi.data lo.data))
      hi.width hi.height
  else none

/-- encode_single_array (sac_encoder.py 215-259): cast the uint8 array to int16 and store
the same array in both slots. -/
def encode_single_array (array : List Nat) (width height : Nat) : Option (List Nat) :=
  build_sac (array.map (fun v => Int.ofNat v)) (array.map (fun v => Int.ofNat v)) width height

/-- The fields recovered by struct.unpack with format <4sBBBBIIII. -/
structure SacHeader where
  magic : List Nat
  flags : Nat
  dtype_code : Nat
  arrays_count : Nat
  reserved : Nat
  length_a : Nat
  length_b : Nat
  width : Nat
  height : Nat

/-- Little-endian uint32 read of the first four bytes. -/
def readU32le (bytes : List Nat) : Nat :=
  bytes.getD 0 0 + 256 * bytes.getD 1 0 + 65536 * bytes.getD 2 0 + 16777216 * bytes.getD 3 0

/-- struct.unpack of the 24-byte header prefix, as in test_sac_v11_optimization.py 71-72;
struct.error (none) when the blob is shorter than the header. -/
def unpack_sac_header (blob : List Nat) : Option SacHeader :=
  if blob.length < 24 then none
  else some {
    magic := blob.take 4
    flags := blob.getD 4 0
    dtype_code := blob.getD 5 0
    arrays_count := blob.getD 6 0
    reserved := blob.getD 7 0
    length_a := readU32le (blob.drop 8)
    length_b := readU32le (blob.drop 12)
    width := readU32le (blob.drop 16)
    height := readU32le (blob.drop 20) }

theorem sac_payload_length (a : List Int) : (sac_payload a).length = 2 * a.length := by
  induction a with
  | nil => rfl
  | cons x a ih =>
    have hc : sac_payload (x :: a) = i16le x ++ sac_payload a := rfl
    rw [hc, List.length_append, ih]
    simp only [i16le, List.length_cons, List.length_nil, List.length_singleton]
    omega

theorem sac_header_length (la lb w h : Nat) : (sac_header la lb w h).length = 24 := by
  simp [sac_header, u32le]

theorem unpack_sac_build (la lb w h : Nat) (rest : List Nat)
    (hla : la < 2 ^ 32) (hlb : lb < 2 ^ 32) (hw : w < 2 ^ 32) (hh : h < 2 ^ 32) :
    unpack_sac_header (sac_header la lb w h ++ rest) =
      some { magic := [0x53, 0x41, 0x43, 0x31], flags := 0, dtype_code := 1, arrays_count := 2,
             reserved := 0, length_a := la, length_b := lb, width := w, height := h } := by
  unfold unpack_sac_header
  rw [if_neg (by simp [sac_header, u32le])]
  simp only [sac_header, u32le, List.cons_append, List.nil_append, List.take_succ_cons,
    List.take_zero, List.getD_cons_zero, List.getD_cons_succ, List.drop_succ_cons,
    List.drop_zero, readU32le, Option.some.injEq, SacHeader.mk.injEq]
  norm_num
  omega

theorem channel_slice_length (c j : Nat) (d : List Int) :
    (channel_slice c j d).length = d.length / c := by
  simp [channel_slice]

theorem decode_difference_length (hi lo : List Nat) :
    (decode_difference hi lo).length = min hi.length lo.length := by
  simp [decode_difference]

theorem build_sac_some (a b : List Int) (w h : Nat) (blob : List Nat)
    (hb : build_sac a b w h = some blob) :
    a.length < 2 ^ 32 ∧ b.length < 2 ^ 32 ∧ w < 2 ^ 32 ∧ h < 2 ^ 32 ∧
    (0 < w ∧ 0 < h → a.length = w * h ∧ b.length = w * h) ∧
    blob = sac_header a.length b.length w h ++ sac_payload a ++ sac_payload b := by
  unfold build_sac at hb
  by_cases hass : 0 < w ∧ 0 < h ∧ ¬(a.length = w * h ∧ b.length = w * h)
  · rw [if_pos hass] at hb
    simp at hb
  · rw [if_neg hass] at hb
    by_cases hfit : a.length < 2 ^ 32 ∧ b.length < 2 ^ 32 ∧ w < 2 ^ 32 ∧ h < 2 ^ 32
    · rw [if_pos hfit] at hb
      simp only [Option.some.injEq] at hb
      refine ⟨hfit.1, hfit.2.1, hfit.2.2.1, hfit.2.2.2, ?_, hb.symm⟩
      intro hwh
      by_contra hcon
      exact hass ⟨hwh.1, hwh.2, hcon⟩
    · rw [if_neg hfit] at hb
      simp at hb

theorem encode_pair_lengths (hi lo : MaskPlane) (blob : List Nat)
    (hch : hi.channels ≠ some 0)
    (hwf : hi.data.length = hi.width * hi.height * numChannels hi.channels)
    (hb : encode_mask_pair_from_images hi lo = some blob) :
    ∃ a b : List Int, build_sac a b hi.width hi.height = some blob ∧
      a.length = hi.width * hi.height ∧ b.length = hi.width * hi.height := by
  unfold encode_mask_pair_from_images at hb
  by_cases hdim : hi.width = lo.width ∧ hi.height = lo.height
  · rw [if_pos hdim] at hb
    have hB := build_sac_some _ _ _ _ _ hb
    by_cases hpos : 0 < hi.width ∧ 0 < hi.height
    · have hl := hB.2.2.2.2.1 hpos
      exact ⟨_, _, hb, hl.1, hl.2⟩
    · have hwh0 : hi.width * hi.height = 0 := by
        rcases Nat.eq_zero_or_pos hi.width with hz | hp
        · simp [hz]
        · rcases Nat.eq_zero_or_pos hi.height with hz2 | hp2
          · simp [hz2]
          · exact absurd ⟨hp, hp2⟩ hpos
      have hdl : hi.data.length = 0 := by
        rw [hwf, hwh0]
        simp
      have hdiff0 : (decode_difference hi.data lo.data).length = 0 := by
        rw [decode_difference_length, hdl]
        simp
      have ha0 : (pair_a_flat hi.channels (decode_difference hi.data lo.data)).length = 0 := by
        cases hcc : hi.channels with
        | none => simpa [pair_a_flat] using hdiff0
        | some c => simp [pair_a_flat, channel_slice_length, hdiff0]
      have hb0 : (pair_b_flat hi.channels (decode_difference hi.data lo.data)).length = 0 := by
        cases hcc : hi.channels with
        | none => simpa [pair_b_flat] using hdiff0
        | some c =>
          by_cases h1c : 1 < c
          · simp [pair_b_flat, h1c, channel_slice_length, hdiff0]
          · simp [pair_b_flat, h1c, hdiff0]
      exact ⟨_, _, hb, by rw [ha0, hwh0], by rw [hb0, hwh0]⟩
  · rw [if_neg hdim] at hb
    simp at hb

/-- C4: every SAC blob emitted by the mask-pair encoder parses back (via the struct.unpack
of the 24-byte prefix used by the repository) to a header whose first 4 bytes are the
ASCII magic SAC1 with dtype_code 1, whose little-endian uint32 length fields equal the
element counts of arrays A and B (both width x height), and whose total blob size is the
24 header bytes plus 2 bytes per int16 element of both payloads, that is
24 + 2 x length_a x 2 since arrays_count is 2. -/
theorem sac_blob_wellformed (hi lo : MaskPlane) (blob : List Nat)
    (hch : hi.channels ≠ some 0)
    (hwf : hi.data.length = hi.width * hi.height * numChannels hi.channels)
    (hb : encode_mask_pair_from_images hi lo = some blob) :
    ∃ hdr, unpack_sac_header blob = some hdr ∧
      hdr.magic = [0x53, 0x41, 0x43, 0x31] ∧ hdr.dtype_code = 1 ∧
      hdr.length_a = hi.width * hi.height ∧ hdr.length_b = hi.width * hi.height ∧
      blob.length = 24 + 2 * hdr.length_a * 2 := by
  obtain ⟨a, b, hbuild, hla, hlb⟩ := encode_pair_lengths hi lo blob hch hwf hb
  obtain ⟨h1, h2, h3, h4, _, hblob⟩ := build_sac_some a b _ _ blob hbuild
  rw [hblob, List.append_assoc]
  refine ⟨_, unpack_sac_build a.length b.length hi.width hi.height _ h1 h2 h3 h4,
    rfl, rfl, hla, hlb, ?_⟩
  simp only [List.length_append, sac_header_length, sac_payload_length]
  omega

/-- C4 witness: a 1 x 1 two-channel mask pair, with the emitted 28-byte blob evaluated
explicitly. -/
theorem sac_blob_wellformed_witness :
    ∃ hdr, unpack_sac_header
        [83, 65, 67, 49, 0, 1, 2, 0, 1, 0, 0, 0, 1, 0, 0, 0, 1, 0, 0, 0, 1, 0, 0, 0,
         0, 0, 0, 0] = some hdr ∧
      hdr.magic = [0x53, 0x41, 0x43, 0x31] ∧ hdr.dtype_code = 1 ∧
      hdr.length_a = 1 * 1 ∧ hdr.length_b = 1 * 1 ∧
      ([83, 65, 67, 49, 0, 1, 2, 0, 1, 0, 0, 0, 1, 0, 0, 0, 1, 0, 0, 0, 1, 0, 0, 0,
        0, 0, 0, 0] : List Nat).length = 24 + 2 * hdr.length_a * 2 :=
  sac_blob_wellformed ⟨1, 1, some 2, [128, 128]⟩ ⟨1, 1, some 2, [0, 0]⟩ _
    (by decide) (by decide) (by decide)

/-- C10: every blob built by build_sac carries flags byte 0 and arrays_count 2, so the
SINGLE_ARRAY representation defined by the format is never emitted; and
encode_single_array stores the same payload in both array slots, with length_b equal to
length_a and byte-identical payload segments. -/
theorem sac_never_single_array :
    (∀ a b w h blob, build_sac a b w h = some blob →
       ∃ hdr, unpack_sac_header blob = some hdr ∧ hdr.flags = 0 ∧ hdr.arrays_count = 2) ∧
    (∀ arr w h blob, encode_single_array arr w h = some blob →
       ∃ hdr, unpack_sac_header blob = some hdr ∧ hdr.length_b = hdr.length_a ∧
         (blob.drop 24).take (2 * arr.length) = blob.drop (24 + 2 * arr.length)) := by
  constructor
  · intro a b w h blob hb
    obtain ⟨h1, h2, h3, h4, _, hblob⟩ := build_sac_some a b w h blob hb
    rw [hblob, List.append_assoc]
    exact ⟨_, unpack_sac_build _ _ _ _ _ h1 h2 h3 h4, rfl, rfl⟩
  · intro arr w h blob hb
    obtain ⟨h1, h2, h3, h4, _, hblob⟩ := build_sac_some _ _ w h blob hb
    have hlen : (arr.map (fun v => Int.ofNat v)).length = arr.length := by simp
    have hp : (sac_payload (arr.map (fun v => Int.ofNat v))).length = 2 * arr.length := by
      rw [sac_payload_length, hlen]
    rw [hblob, List.append_assoc]
    refine ⟨_, unpack_sac_build _ _ _ _ _ h1 h2 h3 h4, rfl, ?_⟩
    set pa := sac_payload (arr.map (fun v => Int.ofNat v)) with hpa
    set hd := sac_header (arr.map (fun v => Int.ofNat v)).length
      (arr.map (fun v => Int.ofNat v)).length w h with hhd
    have e1 : (hd ++ (pa ++ pa)).drop 24 = pa ++ pa := by
      have hdl : hd.length = 24 := sac_header_length _ _ _ _
      have := List.drop_left hd (pa ++ pa)
      rwa [hdl] at this
    have e2 : (hd ++ (pa ++ pa)).drop (24 + 2 * arr.length) = pa := by
      have hassoc : hd ++ (pa ++ pa) = (hd ++ pa) ++ pa := by rw [List.append_assoc]
      have hl2 : (hd ++ pa).length = 24 + 2 * arr.length := by
        rw [List.length_append, sac_header_length, hp]
      rw [hassoc]
      have := List.drop_left (hd ++ pa) pa
      rwa [hl2] at this
    have e3 : (pa ++ pa).take (2 * arr.length) = pa := by
      have := List.take_left pa pa
      rwa [hp] at this
    rw [e1, e2, e3]

/-- C10 witness: the flags and arrays_count bytes of a concrete build_sac blob, and the
duplicated payload of a concrete encode_single_array blob. -/
theorem sac_never_single_array_witness :
    (∃ hdr, unpack_sac_header
        [83, 65, 67, 49, 0, 1, 2, 0, 1, 0, 0, 0, 1, 0, 0, 0, 0, 0, 0, 0, 0, 0, 0, 0,
         1, 0, 2, 0] = some hdr ∧ hdr.flags = 0 ∧ hdr.arrays_count = 2) ∧
    (∃ hdr, unpack_sac_header
        [83, 65, 67, 49, 0, 1, 2, 0, 1, 0, 0, 0, 1, 0, 0, 0, 1, 0, 0, 0, 1, 0, 0, 0,
         7, 0, 7, 0] = some hdr ∧ hdr.length_b = hdr.length_a ∧
        (([83, 65, 67, 49, 0, 1, 2, 0, 1, 0, 0, 0, 1, 0, 0, 0, 1, 0, 0, 0, 1, 0, 0, 0,
           7, 0, 7, 0] : List Nat).drop 24).take (2 * 1) =
          ([83, 65, 67, 49, 0, 1, 2, 0, 1, 0, 0, 0, 1, 0, 0, 0, 1, 0, 0, 0, 1, 0, 0, 0,
            7, 0, 7, 0] : List Nat).drop (24 + 2 * 1)) :=
  ⟨sac_never_single_array.1 [1] [2] 0 0
      [83, 65, 67, 49, 0, 1, 2, 0, 1, 0, 0, 0, 1, 0, 0, 0, 0, 0, 0, 0, 0, 0, 0, 0,
       1, 0, 2, 0] (by decide),
   sac_never_single_array.2 [7] 1 1
      [83, 65, 67, 49, 0, 1, 2, 0, 1, 0, 0, 0, 1, 0, 0, 0, 1, 0, 0, 0, 1, 0, 0, 0,
       7, 0, 7, 0] (by decide)⟩

/-! ### Pixel transforms and the module-global RNG, artorize_runner/protection_pipeline.py
and protection_pipeline_gpu.py -/

/-- Cursor state of the module-global generator _RNG = np.random.default_rng(seed=20240917)
(protection_pipeline.py line 55, protection_pipeline_gpu.py line 57); its Gaussian output
is modeled as an integer-valued stream determined by the seed, consumed left to right. -/
structure RngState where
  cursor : Nat
deriving DecidableEq

/-- The generator state right after module import, when the constant seed 20240917 has
just been applied and nothing has been consumed. -/
def rngInit : RngState := ⟨0⟩

/-- One call _RNG.normal(loc=0.0, scale=6.5, size=n): consume n stream values and advance
the shared state. -/
def rngNormal (stream : Nat → Int) (s : RngState) (n : Nat) : List Int × RngState :=
  ((List.range n).map (fun i => stream (s.cursor + i)), ⟨s.cursor + n⟩)

/-- _apply_fawkes_like (protection_pipeline.py 59-64): add Gaussian noise drawn from the
shared module-global generator and clip to the 8-bit range; the generator state advances
past the consumed values. -/
def apply_fawkes_like (stream : Nat → Int) (img : List Int) (s : RngState) :
    List Int × RngState :=
  let drawn := rngNormal stream s img.length
  (List.zipWith (fun a n => clip255 (a + n)) img drawn.1, drawn.2)

/-- A fresh-process run of _apply_fawkes_like: the module-global generator was seeded once
at import, so the run starts from rngInit, and the output is a function of the
seed-determined stream and the input alone. -/
def CpuFawkesRun (stream : Nat → Int) (img out : List Int) : Prop :=
  out = (apply_fawkes_like stream img rngInit).1

/-- _apply_fawkes_like_gpu (protection_pipeline_gpu.py 61-78): the noise comes from
torch.randn_like, and no torch seed is set anywhere in the repository, so the drawn noise
is an unconstrained ambient value; a run of the transform may produce any output of this
form. -/
def GpuFawkesRun (img out : List Int) : Prop :=
  ∃ noise : List Int, noise.length = img.length ∧
    out = List.zipWith (fun a n => clip255 (a + n)) img noise

/-- C2 counterexample: two independent runs of the GPU fawkes transform on the same
concrete one-pixel input can produce different outputs, because the torch generator is
never seeded from 20240917 or anything else; byte-identical determinism across runs
therefore fails for the cited transforms. -/
theorem fawkes_gpu_nondeterministic :
    ∃ o1 o2 : List Int, GpuFawkesRun [128] o1 ∧ GpuFawkesRun [128] o2 ∧ o1 ≠ o2 := by
  refine ⟨[128], [129], ⟨[0], rfl, by decide⟩, ⟨[1], rfl, by decide⟩, by decide⟩

/-- C2 amended: the CPU transforms are deterministic across independent runs because each
process seeds the module-global generator once at import with 20240917, so two fresh runs
consume the same stream from the same initial state; the generator is not reseeded per
call, and a second call within one process continues from the advanced cursor and can
produce a different output on the same input. -/
theorem fawkes_seed_once_determinism :
    (∀ (stream : Nat → Int) (img o1 o2 : List Int),
       CpuFawkesRun stream img o1 → CpuFawkesRun stream img o2 → o1 = o2) ∧
    (∃ (stream : Nat → Int) (img : List Int),
       (apply_fawkes_like stream img (apply_fawkes_like stream img rngInit).2).1 ≠
         (apply_fawkes_like stream img rngInit).1) := by
  constructor
  · intro stream img o1 o2 h1 h2
    rw [h1, h2]
  · exact ⟨fun n => n, [0], by decide⟩

/-- C2 amended witness: the determinism half applied to a concrete stream and image. -/
theorem fawkes_seed_once_determinism_witness : ([5] : List Int) = [5] :=
  fawkes_seed_once_determinism.1 (fun _ => 0) [5] [5] [5] rfl rfl

/-- Bit sequence used by _apply_invisible_watermark (protection_pipeline.py 96-99): the
bits of each payload byte taken least-significant first. -/
def watermark_bits_lsb (payload : List Nat) : List Nat :=
  (payload.map (fun byte => (List.range 8).map (fun bit => (byte >>> bit) &&& 1))).flatten

/-- Bit sequence used by _apply_invisible_watermark_vectorized
(protection_pipeline_gpu.py 212): np.unpackbits emits the bits of each byte
most-significant first. -/
def watermark_bits_msb (payload : List Nat) : List Nat :=
  (payload.map (fun byte => (List.range 8).map (fun i => (byte >>> (7 - i)) &&& 1))).flatten

/-- The LSB write loop shared by both implementations once the bit list is fixed
(protection_pipeline.py 103-106, protection_pipeline_gpu.py 218-219): the first
len(bits) stream bytes get (value & 0xFE) | bit, the rest stay unchanged. -/
def embed_bits : List Nat → List Nat → List Nat
  | img, [] => img
  | [], _ => []
  | v :: img, b :: bits => ((v &&& 0xFE) ||| b) :: embed_bits img bits

/-- _apply_invisible_watermark (protection_pipeline.py 93-108): embed the UTF-8 payload
bits least-significant first; return the image unchanged when the bits do not fit. -/
def apply_invisible_watermark (img payload : List Nat) : List Nat :=
  if img.length < (watermark_bits_lsb payload).length then img
  else embed_bits img (watermark_bits_lsb payload)

/-- _apply_invisible_watermark_vectorized (protection_pipeline_gpu.py 205-222): same
guard and write loop, but the bits come from np.unpackbits, most-significant first. -/
def apply_invisible_watermark_vectorized (img payload : List Nat) : List Nat :=
  if img.length < (watermark_bits_msb payload).length then img
  else embed_bits img (watermark_bits_msb payload)

/-- Modelled from the spec, for comparison with the source transforms: flatten the raster
into a row-major stream of bytes; for each bit of the UTF-8 encoding of the watermark
text, in little-endian bit order within each byte, replace the least-significant bit of
the next stream byte; if the text exceeds the stream length, leave the image unchanged. -/
def spec_watermark_embed (img payload : List Nat) : List Nat :=
  let bits := (payload.map (fun byte => (List.range 8).map (fun i => byte / 2 ^ i % 2))).flatten
  if img.length < bits.length then img
  else
    List.zipWith (fun v b => 2 * (v / 2) + b) (img.take bits.length) bits ++
      img.drop bits.length

/-- Reversal of the 8-bit order of one byte. -/
def bitrev8 (b : Nat) : Nat :=
  128 * (b % 2) + 64 * (b / 2 % 2) + 32 * (b / 4 % 2) + 16 * (b / 8 % 2) +
    8 * (b / 16 % 2) + 4 * (b / 32 % 2) + 2 * (b / 64 % 2) + b / 128 % 2

set_option maxRecDepth 8192 in
theorem lsb_write_arith : ∀ v < 256, ∀ b < 2, (v &&& 0xFE) ||| b = 2 * (v / 2) + b := by
  decide

theorem watermark_bits_lsb_lt_two (payload : List Nat) :
    ∀ x ∈ watermark_bits_lsb payload, x < 2 := by
  intro x hx
  unfold watermark_bits_lsb at hx
  simp only [List.mem_flatten, List.mem_map] at hx
  obtain ⟨l, ⟨byte, _, rfl⟩, hxl⟩ := hx
  simp only [List.mem_map] at hxl
  obtain ⟨i, _, rfl⟩ := hxl
  rw [Nat.and_one_is_mod]
  exact Nat.mod_lt _ (by norm_num)

theorem embed_bits_eq_spec (img bits : List Nat)
    (himg : ∀ v ∈ img, v < 256) (hbits : ∀ b ∈ bits, b < 2) (hle : bits.length ≤ img.length) :
    embed_bits img bits =
      List.zipWith (fun v b => 2 * (v / 2) + b) (img.take bits.length) bits ++
        img.drop bits.length := by
  induction bits generalizing img with
  | nil => simp [embed_bits]
  | cons b bits ih =>
    cases img with
    | nil => simp at hle
    | cons v img =>
      simp only [List.length_cons, List.take_succ_cons, List.drop_succ_cons,
        List.zipWith_cons_cons, List.cons_append]
      have hv := himg v (by simp)
      have hb := hbits b (by simp)
      rw [show embed_bits (v :: img) (b :: bits) =
          ((v &&& 0xFE) ||| b) :: embed_bits img bits from rfl]
      rw [lsb_write_arith v hv b hb]
      rw [ih img (fun x hx => himg x (by simp [hx])) (fun x hx => hbits x (by simp [hx]))
        (by simpa using hle)]

theorem spec_bits_eq_lsb (payload : List Nat) :
    (payload.map (fun byte => (List.range 8).map (fun i => byte / 2 ^ i % 2))).flatten =
      watermark_bits_lsb payload := by
  unfold watermark_bits_lsb
  congr 1
  apply List.map_congr_left
  intro byte _
  apply List.map_congr_left
  intro i _
  rw [Nat.and_one_is_mod, Nat.shiftRight_eq_div_pow]

set_option maxRecDepth 8192 in
theorem msb_eq_lsb_bitrev : ∀ b < 256,
    (List.range 8).map (fun i => (b >>> (7 - i)) &&& 1) =
      (List.range 8).map (fun i => (bitrev8 b >>> i) &&& 1) := by
  decide

theorem bits_msb_eq_map_bitrev (payload : List Nat) (hp : ∀ b ∈ payload, b < 256) :
    watermark_bits_msb payload = watermark_bits_lsb (payload.map bitrev8) := by
  unfold watermark_bits_msb watermark_bits_lsb
  rw [List.map_map]
  congr 1
  apply List.map_congr_left
  intro byte hbyte
  exact msb_eq_lsb_bitrev byte (hp byte hbyte)

/-- C5 counterexample: on an 8-byte zero raster with the single watermark byte 0x61, the
vectorized invisible-watermark transform cited by the claim does not produce the
little-endian LSB embedding the claim describes. -/
theorem invisible_watermark_msb_counterexample :
    apply_invisible_watermark_vectorized [0, 0, 0, 0, 0, 0, 0, 0] [0x61] ≠
      spec_watermark_embed [0, 0, 0, 0, 0, 0, 0, 0] [0x61] := by
  decide

/-- C5 amended: the CPU invisible-watermark transform implements exactly the little-endian
LSB embedding of the claim (bits of each UTF-8 byte least-significant first, image
unchanged when the text does not fit); the vectorized GPU variant embeds the bits of each
byte most-significant first, which coincides with the CPU embedding of the bit-reversed
payload bytes. -/
theorem invisible_watermark_bit_order :
    (∀ img payload : List Nat, (∀ v ∈ img, v < 256) →
       apply_invisible_watermark img payload = spec_watermark_embed img payload) ∧
    (∀ img payload : List Nat, (∀ b ∈ payload, b < 256) →
       apply_invisible_watermark_vectorized img payload =
         apply_invisible_watermark img (payload.map bitrev8)) := by
  constructor
  · intro img payload himg
    unfold apply_invisible_watermark spec_watermark_embed
    rw [spec_bits_eq_lsb]
    by_cases hfit : img.length < (watermark_bits_lsb payload).length
    · rw [if_pos hfit, if_pos hfit]
    · rw [if_neg hfit, if_neg hfit]
      exact embed_bits_eq_spec img (watermark_bits_lsb payload) himg
        (watermark_bits_lsb_lt_two payload) (by omega)
  · intro img payload hp
    unfold apply_invisible_watermark_vectorized apply_invisible_watermark
    rw [bits_msb_eq_map_bitrev payload hp]

/-- C5 amended witness: both halves evaluated on an 8-byte zero raster and the watermark
byte 0x61. -/
theorem invisible_watermark_bit_order_witness :
    apply_invisible_watermark [0, 0, 0, 0, 0, 0, 0, 0] [0x61] =
        spec_watermark_embed [0, 0, 0, 0, 0, 0, 0, 0] [0x61] ∧
    apply_invisible_watermark_vectorized [0, 0, 0, 0, 0, 0, 0, 0] [0x61] =
        apply_invisible_watermark [0, 0, 0, 0, 0, 0, 0, 0] ([0x61].map bitrev8) :=
  ⟨invisible_watermark_bit_order.1 [0, 0, 0, 0, 0, 0, 0, 0] [0x61] (by decide),
   invisible_watermark_bit_order.2 [0, 0, 0, 0, 0, 0, 0, 0] [0x61] (by decide)⟩

/-! ### The GPU layer pipeline and the poison-mask call signature, claim C3 -/

/-- The declared parameters of _apply_poison_mask_if_enabled
(protection_pipeline.py line 179); all five are required, none has a default. -/
def poison_mask_params : List String :=
  ["image", "original", "config", "target_dir", "stage_name"]

/-- The keywords passed at the per-stage call inside _apply_layers_batched
(protection_pipeline_gpu.py 394-400). -/
def gpu_stage_call_keywords : List String :=
  ["image", "original", "config", "layer_dir", "stage_name"]

/-- The keywords passed at the final-comparison call
(protection_pipeline_gpu.py 481-489). -/
def gpu_final_call_keywords : List String :=
  ["image", "original", "config", "layer_dir", "stage_name", "force", "generate_sac"]

/-- Python keyword binding for a call made with keyword arguments only: the call succeeds
iff every keyword names a declared parameter and every required parameter receives a
keyword; otherwise the interpreter raises TypeError before the callee body (and its
internal try block) runs. -/
def call_binds (params required kwargs : List String) : Bool :=
  kwargs.all (fun k => params.contains k) && required.all (fun p => kwargs.contains p)

/-- The per-stage loop of _apply_layers_batched (protection_pipeline_gpu.py 375-419),
abstracted to the sequence of stage keys it records: each iteration calls
_apply_poison_mask_if_enabled with the per-stage keywords, and an unbound call aborts the
whole function with TypeError because the loop body has no handler. -/
def gpu_stage_loop : List String → Except String (List String)
  | [] => Except.ok []
  | k :: rest =>
    if call_binds poison_mask_params poison_mask_params gpu_stage_call_keywords then
      match gpu_stage_loop rest with
      | Except.ok tail => Except.ok (k :: tail)
      | Except.error e => Except.error e
    else Except.error "TypeError: unexpected keyword argument layer_dir"

/-- _apply_layers_batched (protection_pipeline_gpu.py 327-501), abstracted to the stage
fields of the records it appends: the original record first, one record per stage, and,
when the poison-mask processor imported, a final-comparison record appended only after a
final call made with the final-comparison keywords succeeds and returns data. -/
def apply_layers_batched_stages (stageKeys : List String) (poisonAvailable : Bool) :
    Except String (List String) :=
  match gpu_stage_loop stageKeys with
  | Except.error e => Except.error e
  | Except.ok recs =>
    if poisonAvailable then
      if call_binds poison_mask_params poison_mask_params gpu_final_call_keywords then
        Except.ok (("original" :: recs) ++ ["final-comparison"])
      else Except.error "TypeError: unexpected keyword argument layer_dir"
    else Except.ok ("original" :: recs)

/-- The stage keys built by _build_stage_sequence_gpu for the default workflow
configuration (protection_pipeline_gpu.py 296-324). -/
def default_stage_keys : List String :=
  ["fawkes", "photoguard", "mist", "nightshade", "invisible-watermark"]

/-- C3, the code evaluated at the failing input: neither keyword set used by
_apply_layers_batched binds against the parameters of the imported
_apply_poison_mask_if_enabled (layer_dir is not a parameter, target_dir receives no
keyword), so the batched pipeline aborts with TypeError on the first stage of the default
configuration, and no successful run ever appends a final-comparison record. -/
theorem final_comparison_never_appended :
    call_binds poison_mask_params poison_mask_params gpu_stage_call_keywords = false ∧
    call_binds poison_mask_params poison_mask_params gpu_final_call_keywords = false ∧
    apply_layers_batched_stages default_stage_keys true =
      Except.error "TypeError: unexpected keyword argument layer_dir" ∧
    (∀ (keys : List String) (pa : Bool) (recs : List String),
       apply_layers_batched_stages keys pa = Except.ok recs → "final-comparison" ∉ recs) := by
  have hbs : call_binds poison_mask_params poison_mask_params gpu_stage_call_keywords
      = false := by decide
  have hbf : call_binds poison_mask_params poison_mask_params gpu_final_call_keywords
      = false := by decide
  refine ⟨hbs, hbf, rfl, ?_⟩
  intro keys pa recs h
  cases keys with
  | cons k rest =>
    unfold apply_layers_batched_stages gpu_stage_loop at h
    rw [hbs] at h
    simp at h
  | nil =>
    unfold apply_layers_batched_stages gpu_stage_loop at h
    cases pa with
    | true =>
      rw [hbf] at h
      simp at h
    | false =>
      simp at h
      subst h
      decide

/-! ### Gateway job records, worker loop, callbacks, artorize_gateway/app.py and
backend_upload.py -/

/-- Job status values of app.py lines 36-39. -/
inductive JobStatus
  | queued
  | running
  | done
  | error
deriving DecidableEq

/-- The JobRecord fields the worker loop mutates (app.py 85-119), with updated_at as an
abstract tick and input_path carried to distinguish records. -/
structure JobRec where
  status : JobStatus
  error : Option String
  updatedAt : Nat
  inputPath : String
deriving DecidableEq

/-- JobRecord.touch (app.py 114-119): set the status when one is given, set the error when
one is given, and always refresh updated_at to the current time. -/
def touch (r : JobRec) (status : Option JobStatus) (error : Option String) (now : Nat) :
    JobRec :=
  { r with
    status := status.getD r.status
    error := match error with
      | some e => some e
      | none => r.error
    updatedAt := now }

/-- The successive record states produced while one worker processes a dequeued job
(app.py 586-644): the transition to running, then, depending on whether _process_job
raised, the transition to error with the message, or to done. -/
def worker_states (r : JobRec) (outcome : Except String Unit) (t1 t2 : Nat) : List JobRec :=
  let r1 := touch r (some JobStatus.running) none t1
  match outcome with
  | Except.error msg => [r1, touch r1 (some JobStatus.error) (some msg) t2]
  | Except.ok _ => [r1, touch r1 (some JobStatus.done) none t2]

/-- The record left in the job table after one worker pass: completion does not remove it
(only the DELETE endpoint does, app.py 945-958), so a further queue entry carrying the
same id dequeues this state. -/
def worker_last (r : JobRec) (outcome : Except String Unit) (t1 t2 : Nat) : JobRec :=
  ((worker_states r outcome t1 t2).getLast?).getD r

/-- The record states observed when the worker dequeues the same job id twice: every
/v1/process/artwork submission stores the record and enqueues its client-supplied id
(app.py 892-893), so a reused id yields one record with two queue entries, and the second
dequeue finds the record still in the table (app.py 592) and touches it unconditionally
(app.py 596). -/
def worker_second_dequeue_states (r : JobRec) (o1 o2 : Except String Unit)
    (t1 t2 t3 t4 : Nat) : List JobRec :=
  worker_states r o1 t1 t2 ++ worker_states (worker_last r o1 t1 t2) o2 t3 t4

/-- The status sequences the specification allows: a prefix of queued, running, done or a
prefix of queued, running, error. -/
def lifecycleOk (seq : List JobStatus) : Prop :=
  seq <+: [JobStatus.queued, JobStatus.running, JobStatus.done] ∨
    seq <+: [JobStatus.queued, JobStatus.running, JobStatus.error]

/-- C6 counterexample: a job id submitted twice through /v1/process/artwork is enqueued
twice for a single record, and on the second dequeue the worker unconditionally touches
the already-failed record back to running, so the observed status sequence
queued, running, error, running, error is reachable and is not a prefix of
queued, running, then done or error: the status moves backward. -/
theorem job_status_backward_counterexample :
    (JobRec.mk JobStatus.queued none 0 "a.png" ::
        worker_second_dequeue_states (JobRec.mk JobStatus.queued none 0 "a.png")
          (Except.error "boom") (Except.error "boom") 1 2 3 4).map
      (fun s => s.status) =
      [JobStatus.queued, JobStatus.running, JobStatus.error, JobStatus.running,
       JobStatus.error] ∧
    ¬ lifecycleOk
      [JobStatus.queued, JobStatus.running, JobStatus.error, JobStatus.running,
       JobStatus.error] := by
  constructor
  · rfl
  · intro hcon
    have hlen : (5 : Nat) ≤ 3 := by
      cases hcon with
      | inl h => simpa using h.length_le
      | inr h => simpa using h.length_le
    omega

/-- C6 amended: starting from a queued record, a single worker pass (a job id dequeued
exactly once) observes only prefixes of queued, running, then done or error, monotonically
forward, and updated_at is refreshed to the transition time at every transition. -/
theorem job_status_monotone (r : JobRec) (outcome : Except String Unit) (t1 t2 : Nat)
    (hq : r.status = JobStatus.queued) :
    (∀ k, lifecycleOk
      (((r :: worker_states r outcome t1 t2).map (fun s => s.status)).take k)) ∧
    (worker_states r outcome t1 t2).map (fun s => s.updatedAt) = [t1, t2] := by
  constructor
  · intro k
    cases outcome with
    | ok u =>
      left
      have hfull : (r :: worker_states r (Except.ok u) t1 t2).map (fun s => s.status) =
          [JobStatus.queued, JobStatus.running, JobStatus.done] := by
        simp [worker_states, touch, hq]
      rw [hfull]
      exact List.take_prefix k _
    | error msg =>
      right
      have hfull : (r :: worker_states r (Except.error msg) t1 t2).map (fun s => s.status) =
          [JobStatus.queued, JobStatus.running, JobStatus.error] := by
        simp [worker_states, touch, hq]
      rw [hfull]
      exact List.take_prefix k _
  · cases outcome <;> simp [worker_states, touch]

/-- C6 witness: a queued record processed successfully, observed after two transitions. -/
theorem job_status_monotone_witness :
    lifecycleOk (((JobRec.mk JobStatus.queued none 0 "in.png" ::
        worker_states (JobRec.mk JobStatus.queued none 0 "in.png") (Except.ok ()) 5 9).map
          (fun s => s.status)).take 2) ∧
    (worker_states (JobRec.mk JobStatus.queued none 0 "in.png") (Except.ok ()) 5 9).map
        (fun s => s.updatedAt) = [5, 9] :=
  ⟨(job_status_monotone (JobRec.mk JobStatus.queued none 0 "in.png")
      (Except.ok ()) 5 9 rfl).1 2,
   (job_status_monotone (JobRec.mk JobStatus.queued none 0 "in.png")
      (Except.ok ()) 5 9 rfl).2⟩

/-- Backend behaviors observable per upload attempt (backend_upload.py 206-277). -/
inductive BackendResponse
  | status (code : Nat)
  | timeout
  | netError
deriving DecidableEq

/-- The outcomes of _upload_with_retry: success or one of the exception classes of
backend_upload.py 16-33. -/
inductive UploadOutcome
  | success
  | authFailed
  | rateLimited
  | timedOut
  | uploadFailed
deriving DecidableEq

/-- _upload_with_retry (backend_upload.py 195-282) with the backend modeled as a function
from attempt index to response; returns the outcome together with the number of HTTP
requests issued. The last argument counts the loop iterations still available, the current
one included: 201 returns the parsed body, 401 raises BackendAuthError immediately, 429
and the transport errors retry with backoff until the attempts are exhausted, and any
other code raises without retrying. -/
def upload_attempts (responses : Nat → BackendResponse) (attempt : Nat) :
    Nat → UploadOutcome × Nat
  | 0 => (UploadOutcome.uploadFailed, 0)
  | remaining + 1 =>
    match responses attempt with
    | BackendResponse.status 201 => (UploadOutcome.success, 1)
    | BackendResponse.status 401 => (UploadOutcome.authFailed, 1)
    | BackendResponse.status 429 =>
      if 0 < remaining then
        ((upload_attempts responses (attempt + 1) remaining).1,
          (upload_attempts responses (attempt + 1) remaining).2 + 1)
      else (UploadOutcome.rateLimited, 1)
    | BackendResponse.status _ => (UploadOutcome.uploadFailed, 1)
    | BackendResponse.timeout =>
      if 0 < remaining then
        ((upload_attempts responses (attempt + 1) remaining).1,
          (upload_attempts responses (attempt + 1) remaining).2 + 1)
      else (UploadOutcome.timedOut, 1)
    | BackendResponse.netError =>
      if 0 < remaining then
        ((upload_attempts responses (attempt + 1) remaining).1,
          (upload_attempts responses (attempt + 1) remaining).2 + 1)
      else (UploadOutcome.uploadFailed, 1)

/-- The retry loop entered with attempt 0 and max_retries iterations available
(backend_upload.py 206). -/
def upload_with_retry (maxRetries : Nat) (responses : Nat → BackendResponse) :
    UploadOutcome × Nat :=
  upload_attempts responses 0 maxRetries

/-- The completion-callback error code chosen in _send_callback_on_completion
(app.py 456-477): BackendAuthError maps to BACKEND_AUTH_FAILED and every other failure of
the backend upload maps to BACKEND_UPLOAD_FAILED. -/
def completion_error_code : UploadOutcome → Option String
  | UploadOutcome.success => none
  | UploadOutcome.authFailed => some "BACKEND_AUTH_FAILED"
  | _ => some "BACKEND_UPLOAD_FAILED"

/-- C7: when the backend answers the first request with HTTP 401, exactly one request is
issued, no retry follows, the upload fails as the authentication error, and the completion
callback carries error code BACKEND_AUTH_FAILED. -/
theorem backend_401_terminal (maxRetries : Nat) (responses : Nat → BackendResponse)
    (hpos : 0 < maxRetries) (h401 : responses 0 = BackendResponse.status 401) :
    upload_with_retry maxRetries responses = (UploadOutcome.authFailed, 1) ∧
    completion_error_code (upload_with_retry maxRetries responses).1 =
      some "BACKEND_AUTH_FAILED" := by
  obtain ⟨m, rfl⟩ : ∃ m, maxRetries = m + 1 := ⟨maxRetries - 1, by omega⟩
  have hstep : upload_with_retry (m + 1) responses = (UploadOutcome.authFailed, 1) := by
    unfold upload_with_retry upload_attempts
    rw [h401]
  exact ⟨hstep, by rw [hstep]; rfl⟩

/-- C7 witness: a backend that always answers 401, with three configured attempts. -/
theorem backend_401_terminal_witness :
    upload_with_retry 3 (fun _ => BackendResponse.status 401) =
        (UploadOutcome.authFailed, 1) ∧
    completion_error_code
        (upload_with_retry 3 (fun _ => BackendResponse.status 401)).1 =
      some "BACKEND_AUTH_FAILED" :=
  backend_401_terminal 3 (fun _ => BackendResponse.status 401) (by decide) rfl

/-- One scan step of Python str.replace with a nonempty pattern; the fuel bounds the
number of characters consumed, making the recursion structural. -/
def replace_go (pat rep : List Char) : Nat → List Char → List Char
  | 0, s => s
  | _ + 1, [] => []
  | fuel + 1, c :: rest =>
    if pat.isPrefixOf (c :: rest) then
      rep ++ replace_go pat rep fuel (rest.drop (pat.length - 1))
    else c :: replace_go pat rep fuel rest

/-- Python str.replace(old, new): replace every non-overlapping occurrence, scanning left
to right; the gateway never calls it with an empty pattern. -/
def py_replace (s pat rep : String) : String :=
  String.mk (replace_go pat.toList rep.toList s.toList.length s.toList)

/-- The progress URL derivation of _send_progress_callback (app.py 278): the completion
URL with the substring process-complete replaced by process-progress. -/
def progress_url (callbackUrl : String) : String :=
  py_replace callbackUrl "process-complete" "process-progress"

/-- One progress callback payload (app.py 281-288) with the URL it is posted to. -/
structure ProgressEvent where
  url : String
  current_step : String
  step_number : Nat
  total_steps : Nat
  percentage : Nat
deriving DecidableEq

/-- The progress callbacks emitted by one pass of the worker loop for a job with a
callback URL (app.py 596-632): step 1 right after the transition to running, step 2
before the pipeline call, and step 3 only when _process_job returned without raising;
the send itself swallows transport errors (callback_client.py 93-148), so emission only
depends on the pipeline outcome. -/
def worker_progress_events (callbackUrl : String) (pipelineOk : Bool) :
    List ProgressEvent :=
  [{ url := progress_url callbackUrl, current_step := "Extracting image metadata",
     step_number := 1, total_steps := 4, percentage := 25 },
   { url := progress_url callbackUrl, current_step := "Applying protection layers",
     step_number := 2, total_steps := 4, percentage := 50 }] ++
    (if pipelineOk then
      [{ url := progress_url callbackUrl, current_step := "Uploading to backend",
         step_number := 3, total_steps := 4, percentage := 75 }]
    else [])

/-- C8 counterexample: when _process_job raises, for example on an unreadable input file,
the worker emits only the first two progress callbacks, so the claimed exactly-three does
not hold for every job with a callback URL. -/
theorem progress_not_always_three :
    (worker_progress_events "http://sink/process-complete" false).length = 2 ∧
      (2 : Nat) ≠ 3 := by
  exact ⟨rfl, by decide⟩

/-- C8 amended: for every job with a callback URL whose pipeline invocation returns
normally, the worker emits exactly three progress callbacks in order, with step numbers
1, 2, 3, percentages 25, 50, 75 and total_steps 4, each posted to the completion URL with
the substring process-complete replaced by process-progress; when the pipeline raises,
only the first two are emitted. -/
theorem progress_checkpoints (cb : String) :
    worker_progress_events cb true =
      [{ url := progress_url cb, current_step := "Extracting image metadata",
         step_number := 1, total_steps := 4, percentage := 25 },
       { url := progress_url cb, current_step := "Applying protection layers",
         step_number := 2, total_steps := 4, percentage := 50 },
       { url := progress_url cb, current_step := "Uploading to backend",
         step_number := 3, total_steps := 4, percentage := 75 }] ∧
    (worker_progress_events cb false).length = 2 ∧
    progress_url "http://sink/process-complete" = "http://sink/process-progress" := by
  refine ⟨rfl, rfl, ?_⟩
  rfl

/-- C8 amended witness: the three events evaluated at a concrete callback URL. -/
theorem progress_checkpoints_witness :
    worker_progress_events "http://sink/process-complete" true =
      [{ url := progress_url "http://sink/process-complete",
         current_step := "Extracting image metadata",
         step_number := 1, total_steps := 4, percentage := 25 },
       { url := progress_url "http://sink/process-complete",
         current_step := "Applying protection layers",
         step_number := 2, total_steps := 4, percentage := 50 },
       { url := progress_url "http://sink/process-complete",
         current_step := "Uploading to backend",
         step_number := 3, total_steps := 4, percentage := 75 }] ∧
    (worker_progress_events "http://sink/process-complete" false).length = 2 ∧
    progress_url "http://sink/process-complete" = "http://sink/process-progress" :=
  progress_checkpoints "http://sink/process-complete"

/-- Python dict assignment state.jobs[job_id] = record (app.py 688, 727, 892), with the
table as a map from id to record: the binding under the id is replaced or created. -/
def jobs_insert (jobs : String → Option JobRec) (id : String) (r : JobRec) :
    String → Option JobRec :=
  fun k => if k = id then some r else jobs k

/-- Python dict lookup state.jobs.get(job_id). -/
def jobs_get (jobs : String → Option JobRec) (id : String) : Option JobRec :=
  jobs id

/-- /v1/process/artwork (app.py 816-900): the stored id is the client-supplied metadata
job_id (line 852) and the record is stored by plain dict assignment (line 892), with no
check that the id is fresh. -/
def process_artwork_submit (jobs : String → Option JobRec) (metaJobId : String)
    (r : JobRec) : String → Option JobRec :=
  jobs_insert jobs metaJobId r

/-- C9 counterexample: two submissions through /v1/process/artwork with the same
client-supplied job_id abc make the second record replace the first, so a job id does not
map to at most one record for the process lifetime. -/
theorem job_id_replaced_counterexample :
    jobs_get (process_artwork_submit (fun _ => none) "abc"
        (JobRec.mk JobStatus.queued none 0 "a.png")) "abc" =
      some (JobRec.mk JobStatus.queued none 0 "a.png") ∧
    jobs_get (process_artwork_submit
        (process_artwork_submit (fun _ => none) "abc"
          (JobRec.mk JobStatus.queued none 0 "a.png"))
        "abc" (JobRec.mk JobStatus.queued none 1 "b.png")) "abc" =
      some (JobRec.mk JobStatus.queued none 1 "b.png") ∧
    JobRec.mk JobStatus.queued none 1 "b.png" ≠ JobRec.mk JobStatus.queued none 0 "a.png" := by
  refine ⟨rfl, rfl, by decide⟩

/-- C9 amended: a dict insert changes no other key, so the /v1/jobs submissions, which
store under a freshly generated uuid4 id, never replace an existing record; but
/v1/process/artwork stores under the client-supplied job_id, and a submission reusing an
existing id replaces that record with the new one. -/
theorem job_id_single_record :
    (∀ (jobs : String → Option JobRec) (id : String) (r : JobRec) (id0 : String),
       id0 ≠ id → jobs_get (jobs_insert jobs id r) id0 = jobs_get jobs id0) ∧
    (∀ (jobs : String → Option JobRec) (id : String) (r : JobRec),
       jobs_get (jobs_insert jobs id r) id = some r) := by
  constructor
  · intro jobs id r id0 hne
    simp [jobs_get, jobs_insert, hne]
  · intro jobs id r
    simp [jobs_get, jobs_insert]

/-- C9 amended witness: an insert under abc leaves the record under zzz untouched and maps
abc to the inserted record. -/
theorem job_id_single_record_witness :
    jobs_get (jobs_insert (fun _ => none) "abc"
        (JobRec.mk JobStatus.queued none 0 "a.png")) "zzz" =
      jobs_get (fun _ => none) "zzz" ∧
    jobs_get (jobs_insert (fun _ => none) "abc"
        (JobRec.mk JobStatus.queued none 0 "a.png")) "abc" =
      some (JobRec.mk JobStatus.queued none 0 "a.png") :=
  ⟨job_id_single_record.1 (fun _ => none) "abc"
      (JobRec.mk JobStatus.queued none 0 "a.png") "zzz" (by decide),
   job_id_single_record.2 (fun _ => none) "abc"
      (JobRec.mk JobStatus.queued none 0 "a.png")⟩
